import Mathlib

/-!
Verification of the WhatsApp orders bot (single-file Express server).

The development is a shallow embedding of the pure logic of the bot:

* the Google-Sheets-backed catalog read (`getMenu`) and order store
  (`saveOrder`, `updateOrderStatus`) are modelled over explicit row data,
  with a thrown/failed read represented by `Except.error` / `none`;
* the conversation webhook (`app.post("/webhook", ...)`) is modelled as a
  total function `webhook` from (catalog, clock, inbound event, per-user
  state) to (new state, list of effects); outbound Twilio messages are
  represented structurally (`OutMsg`) because their exact text interleaves
  locale-dependent `Intl.NumberFormat` output;
* `Date.now()` / `new Date()` readings are supplied by an explicit `clock`
  list consumed left to right;
* JS numbers that the code produces with `parseFloat`/`parseInt` are
  modelled as `Option Int` (`none` standing for `NaN`), and JS string
  truthiness (`x || d`, `!x`) is modelled by the `js...` helpers below.

The source stores the pending delivery type and address in the same `Map`
as the carts, under the string keys `phone + "_delivery"` and
`phone + "_address"`; since the webhook only ever touches the three keys
derived from the phone of the sender, the per-user view of the two maps is
modelled by the `Session` structure (fields `cart`, `state`, `deliv`,
`addr`).
-/

namespace WhatsBot

/-- The ECMAScript whitespace class: WhiteSpace ∪ LineTerminator, i.e.
TAB LF VT FF CR SPACE NBSP, U+1680, U+2000–U+200A, LS, PS, U+202F,
U+205F, U+3000 and ZWNBSP (U+FEFF).  This is the exact set matched by
`\s`, removed by `trim()` and skipped by `parseInt`. -/
def isWsChar (c : Char) : Bool :=
  let n := c.toNat
  (9 ≤ n && n ≤ 13) || n = 32 || n = 0xA0 || n = 0x1680 ||
  (0x2000 ≤ n && n ≤ 0x200A) || n = 0x2028 || n = 0x2029 || n = 0x202F ||
  n = 0x205F || n = 0x3000 || n = 0xFEFF

/-- Models `s || d` for a JS string `s` (empty string is falsy). -/
def jsStrOr (s d : String) : String :=
  if s = "" then d else s

/-- Models `map.get k || d` where the stored values are strings:
`undefined` and the empty string both fall back to the default. -/
def jsGetStrOr (o : Option String) (d : String) : String :=
  match o with
  | none => d
  | some s => if s = "" then d else s

/-- JS truthiness of a possibly-undefined string. -/
def jsTruthyOpt (o : Option String) : Bool :=
  match o with
  | none => false
  | some s => !(s = "")

/-- Per-character simple lowercase mapping of `toLowerCase()`: A–Z and the
Latin-1 uppercase letters À–Þ (U+00C0–U+00DE, excluding the multiplication
sign U+00D7) map down by 32; every other code point below U+0100 — ß, µ,
digits, punctuation, the already-lowercase letters — is a fixed point of
`toLowerCase()` and is kept, so the mapping agrees with `toLowerCase()` on
the whole Basic Latin and Latin-1 Supplement blocks (code points above
U+00FF are kept unchanged). -/
def jsCharToLower (c : Char) : Char :=
  let n := c.toNat
  if 0x41 ≤ n ∧ n ≤ 0x5A then Char.ofNat (n + 32)
  else if (0xC0 ≤ n ∧ n ≤ 0xDE) ∧ n ≠ 0xD7 then Char.ofNat (n + 32)
  else c

/-- Lowercasing as done by `toLowerCase()` (exact on Basic Latin and
Latin-1, see `jsCharToLower`). -/
def jsToLower (s : String) : String :=
  String.mk (s.toList.map jsCharToLower)

/-- Both-ends trim, as done by `trim()`. -/
def jsTrim (s : String) : String :=
  String.mk (((s.toList.dropWhile isWsChar).reverse.dropWhile isWsChar).reverse)

/-- Source: `Body ? Body.toLowerCase().trim() : ''` — the message normalization at
the top of the webhook. -/
def jsNormBody (body : Option String) : String :=
  match body with
  | none => ""
  | some s => jsTrim (jsToLower s)

/-- Source: `String.prototype.startsWith`, used on the media content type. -/
def strStartsWith (s p : String) : Bool :=
  p.toList.isPrefixOf s.toList

/-- The separator class `[,\s]` of the product-selection split. -/
def isSepChar (c : Char) : Bool :=
  c = ',' || isWsChar c

/-- Worker for `splitSeps`; `emitted` tells whether the previous character
was a separator (consecutive separators collapse, as with `split(/[,\s]+/)`). -/
def splitSepsAux : List Char → List Char → Bool → List String
  | [], acc, _ => [String.mk acc.reverse]
  | c :: cs, acc, prevSep =>
    if isSepChar c then
      if prevSep then splitSepsAux cs acc true
      else String.mk acc.reverse :: splitSepsAux cs [] true
    else splitSepsAux cs (c :: acc) false

/-- Source: `message.split(/[,\s]+/)`: split on maximal runs of commas/whitespace,
keeping the (possibly empty) fragments before the first and after the last
run. -/
def splitSeps (s : String) : List String :=
  splitSepsAux s.toList [] false

/-- Value of a leading decimal-digit run; `none` when there is none
(`parseInt` yields `NaN` there). -/
def digitsVal (l : List Char) : Option Nat :=
  let ds := l.takeWhile Char.isDigit
  if ds.isEmpty then none
  else some (ds.foldl (fun a c => a * 10 + (Char.toNat c - Char.toNat '0')) 0)

/-- Models `parseInt(s)` (radix 10) on the inputs the bot feeds it: skip
leading whitespace, optional sign, then a leading digit run; `none` models
`NaN`.  Trailing characters are ignored, as `parseInt` does. -/
def parseIntM (s : String) : Option Int :=
  match s.toList.dropWhile isWsChar with
  | '-' :: rest => (digitsVal rest).map (fun n => -(n : Int))
  | '+' :: rest => (digitsVal rest).map (fun n => (n : Int))
  | rest => (digitsVal rest).map (fun n => (n : Int))

/-- Models `parseFloat` on the integer-numeral price cells the catalog
claims exercise; `none` models `NaN` for a non-numeric cell. -/
def parseFloatInt (s : String) : Option Int :=
  parseIntM s

/-- Decimal rendering of a `Nat`, as JS `Number.prototype.toString` renders
the `Date.now()` order ids. -/
def natToStrAux : Nat → Nat → List Char
  | 0, _ => []
  | _ + 1, 0 => []
  | fuel + 1, n => natToStrAux fuel (n / 10) ++ [Char.ofNat (48 + n % 10)]

/-- Decimal rendering of a `Nat`. -/
def natToStr (n : Nat) : String :=
  if n = 0 then "0" else String.mk (natToStrAux (n + 1) n)

/-- Decimal rendering of an `Int`. -/
def intToStr (i : Int) : String :=
  match i with
  | Int.ofNat n => natToStr n
  | Int.negSucc n => String.mk ('-' :: (natToStr (n + 1)).toList)

/-- Template interpolation of a JS number (`Option Int` with `none` = NaN). -/
def numToStr (v : Option Int) : String :=
  match v with
  | some i => intToStr i
  | none => "NaN"

/-- Source: `orderId.slice(-6)`: the last six characters (the whole string when
shorter). -/
def sliceNeg6 (s : String) : String :=
  String.mk (s.toList.drop (s.toList.length - 6))

/-- NaN-propagating addition of JS numbers. -/
def jsAdd (a b : Option Int) : Option Int :=
  match a, b with
  | some x, some y => some (x + y)
  | _, _ => none

/-- NaN-propagating multiplication of JS numbers. -/
def jsMul (a b : Option Int) : Option Int :=
  match a, b with
  | some x, some y => some (x * y)
  | _, _ => none

/-- One `Date.now()` / `new Date()` reading: head of the clock stream
(0 once the supplied stream is exhausted, which the theorems never rely on). -/
def tick (clock : List Nat) : Nat × List Nat :=
  match clock with
  | [] => (0, [])
  | t :: rest => (t, rest)

/-- A catalog product as built by `getMenu` from a sheet row
(`id,name,description,price,category,available`). -/
structure Product where
  id : String
  name : String
  description : String
  price : Option Int
  category : String
  available : Bool
deriving DecidableEq, Repr

/-- One cart line: the product snapshot spread into the line
(`{...product, quantity: 1}`) plus its quantity. -/
structure CartItem where
  product : Product
  quantity : Nat
deriving DecidableEq, Repr

/-- A cell of the `Pedidos` sheet.  `itemsJson` stands for the
`JSON.stringify`-serialized item list and `isoTime` for the
`toISOString()` timestamp, both kept structurally. -/
inductive Cell where
  | str (s : String)
  | num (v : Option Int)
  | itemsJson (items : List CartItem)
  | isoTime (t : Nat)
deriving DecidableEq, Repr

/-- The `orderData` object assembled by `processOrder`. -/
structure OrderData where
  customerPhone : String
  customerName : String
  items : List CartItem
  total : Option Int
  deliveryType : String
  address : String
  paymentMethod : String
  paymentStatus : String
  orderId : String
deriving DecidableEq, Repr

/-- Per-phone view of the two global maps: `userStates.get(phone)`,
`userCarts.get(phone)`, `userCarts.get(phone + "_delivery")` and
`userCarts.get(phone + "_address")`. -/
structure Session where
  state : Option String
  cart : Option (List CartItem)
  deliv : Option String
  addr : Option String
deriving DecidableEq, Repr

/-- The state the webhook reads and writes: the session of the sender plus the
`Pedidos` sheet (`none` = the external read would fail). -/
structure BotState where
  session : Session
  sheet : Option (List (List Cell))
deriving DecidableEq, Repr

/-- An inbound webhook event (`req.body` fields used by the handler). -/
structure Event where
  Body : Option String
  From : String
  ProfileName : Option String
  MediaUrl0 : Option String
  MediaContentType0 : Option String
deriving DecidableEq, Repr

/-- Outbound messages, kept structurally: each constructor is one of the
text templates of the source, applied to the data interpolated into it. -/
inductive OutMsg where
  | welcome (customerName : String)
  | menuAndCart (menu : List Product) (cart : List CartItem)
  | cartContents (cart : List CartItem)
  | cartCleared
  | orderCancelled
  | nothingToCancel
  | emptyCartFinalize
  | orderSummaryDeliveryChoice (cart : List CartItem)
  | deliveryAddressPrompt
  | paymentPromptPickup (cart : List CartItem)
  | paymentPromptDelivery (cart : List CartItem) (address : String)
  | invalidDeliveryOption
  | invalidPaymentOption
  | mpInstructions (cart : List CartItem) (total : Option Int) (link : String) (orderId : String)
  | orderConfirmation (orderId : String) (cart : List CartItem) (total : Option Int)
      (deliveryType address paymentMethod : String)
  | proofReceived
  | productsAdded (added notFound : List String) (cart : List CartItem)
  | adminNotification (status : String)
deriving DecidableEq, Repr

/-- Side effects of one handled event: Twilio sends and order-store calls
(`getMenu` fetches are recorded as `gwFetchMenu`). -/
inductive Effect where
  | send (dest : String) (msg : OutMsg)
  | gwSaveOrder (row : List Cell)
  | gwUpdateStatus (phone status : String)
  | gwFetchMenu
deriving DecidableEq, Repr

/-- Source: `STATES.MAIN_MENU`. -/
def mainMenuSt : String := "main_menu"
/-- Source: `STATES.BROWSING_PRODUCTS`. -/
def browsingSt : String := "browsing_products"
/-- Source: `STATES.CART_REVIEW`. -/
def cartReviewSt : String := "cart_review"
/-- Source: `STATES.DELIVERY_INFO`. -/
def deliveryInfoSt : String := "delivery_info"
/-- Source: `STATES.PAYMENT_METHOD`. -/
def paymentMethodSt : String := "payment_method"
/-- Source: `STATES.PAYMENT_CONFIRMATION`. -/
def paymentConfirmationSt : String := "payment_confirmation"
/-- Source: `STATES.CONFIRMING_ORDER`. -/
def confirmingOrderSt : String := "confirming_order"

/-- Source: `userStates.get(phone) || STATES.MAIN_MENU`. -/
def stateView (s : Session) : String :=
  jsGetStrOr s.state mainMenuSt

/-- Source: `userCarts.get(phone) || []` (an empty array is truthy in JS, so only a
missing entry falls back). -/
def cartView (s : Session) : List CartItem :=
  s.cart.getD []

/-- Source: `MediaUrl0 && MediaContentType0 && MediaContentType0.startsWith("image/")`. -/
def hasImage (ev : Event) : Bool :=
  jsTruthyOpt ev.MediaUrl0 && jsTruthyOpt ev.MediaContentType0 &&
    strStartsWith (ev.MediaContentType0.getD "") "image/"

/-- Parsing of one catalog sheet row into a product
(`{id: row[0], name: row[1], description: row[2] || '', price:
parseFloat(row[3]), category: row[4], available: row[5] === "TRUE"}`);
a missing cell is `undefined`, which compares and defaults like the empty string here. -/
def rowToProduct (row : List String) : Product :=
  { id := row.getD 0 ""
    name := row.getD 1 ""
    description := jsStrOr (row.getD 2 "") ""
    price := parseFloatInt (row.getD 3 "")
    category := row.getD 4 ""
    available := row.getD 5 "" == "TRUE" }

/-- Source: `getMenu()`: the argument is the outcome of the sheet read —
`Except.error ()` a thrown read error (caught, logged, `[]` returned),
`.ok none` a response with no `values`, `.ok (some rows)` the raw rows.
The header row is dropped, rows are parsed, unavailable products filtered. -/
def getMenu (resp : Except Unit (Option (List (List String)))) : List Product :=
  match resp with
  | Except.error _ => []
  | Except.ok none => []
  | Except.ok (some rows) =>
    if rows.length = 0 then []
    else ((rows.tail).map rowToProduct).filter (fun p => p.available)

/-- Sum `cart.reduce((sum, item) => sum + item.price * item.quantity, 0)`. -/
def cartTotal (cart : List CartItem) : Option Int :=
  cart.foldl (fun s it => jsAdd s (jsMul it.product.price (some (it.quantity : Int)))) (some 0)

/-- The displayed cart lines of `formatCart`: its `forEach` renders exactly
one numbered line per cart item, showing the product name and quantity. -/
def cartDisplayLines (cart : List CartItem) : List (String × Nat) :=
  cart.map (fun it => (it.product.name, it.quantity))

/-- Increment (in place) the quantity of the first cart line whose id
matches — the mutation `existingItem.quantity += 1` through the reference
returned by `cart.find`. -/
def incFirst : List CartItem → String → List CartItem
  | [], _ => []
  | it :: r, s =>
    if it.product.id = s then { it with quantity := it.quantity + 1 } :: r
    else it :: incFirst r s

/-- Accumulator of the product-selection loop: the cart being mutated plus
the `addedProducts` and `notFoundProducts` arrays. -/
structure SelState where
  cart : List CartItem
  added : List String
  notFound : List String
deriving DecidableEq, Repr

/-- One iteration of `productIds.forEach(...)`: resolve the id in the
fresh catalog via `parseInt(item.id) === productId`, then either bump the
existing cart line (string-equal ids) or push a new line with quantity 1;
unresolved ids go to `notFoundProducts` via `productId.toString()`. -/
def addProduct (menu : List Product) (st : SelState) (pid : Int) : SelState :=
  match menu.find? (fun p => parseIntM p.id == some pid) with
  | some product =>
    match st.cart.find? (fun it => it.product.id == product.id) with
    | some _ =>
      { st with cart := incFirst st.cart product.id, added := st.added ++ [product.name] }
    | none =>
      { st with cart := st.cart ++ [{ product := product, quantity := 1 }],
                added := st.added ++ [product.name] }
  | none => { st with notFound := st.notFound ++ [intToStr pid] }

/-- The whole product-selection loop over the parsed ids. -/
def processSelection (menu : List Product) (cart : List CartItem) (ids : List Int) : SelState :=
  ids.foldl (addProduct menu) { cart := cart, added := [], notFound := [] }

/-- Source: `/^[\d,\s]+$/.test(message)`. -/
def isSelectionMsg (s : String) : Bool :=
  !s.toList.isEmpty && s.toList.all (fun c => c.isDigit || c = ',' || isWsChar c)

/-- Source: `message.split(/[,\s]+/).map(id => parseInt(id.trim())).filter(id => !isNaN(id))`. -/
def tokenIds (s : String) : List Int :=
  (splitSeps s).filterMap (fun t => parseIntM (jsTrim t))

/-- The 10-cell row `saveOrder` appends to `Pedidos` (columns A..J):
timestamp, phone, name, serialized items, total, delivery type,
`address || ''`, `paymentMethod || "Efectivo"`, `paymentStatus ||
"Pendiente"`, `"NUEVO"`. -/
def orderRowOf (ts : Nat) (o : OrderData) : List Cell :=
  [Cell.isoTime ts, Cell.str o.customerPhone, Cell.str o.customerName,
   Cell.itemsJson o.items, Cell.num o.total, Cell.str o.deliveryType,
   Cell.str (jsStrOr o.address ""), Cell.str (jsStrOr o.paymentMethod "Efectivo"),
   Cell.str (jsStrOr o.paymentStatus "Pendiente"), Cell.str "NUEVO"]

/-- Source: `saveOrder(orderData)`: append one row; a failed store (`none`) swallows
the write (error logged, not propagated).  Returns the new sheet and the
row that was (to be) appended. -/
def saveOrder (ts : Nat) (sheet : Option (List (List Cell))) (o : OrderData) :
    Option (List (List Cell)) × List Cell :=
  let row := orderRowOf ts o
  (sheet.map (fun rows => rows ++ [row]), row)

/-- Source: `rows[i][1] === phone`. -/
def rowPhoneIs (row : List Cell) (phone : String) : Bool :=
  row.get? 1 == some (Cell.str phone)

/-- The `for (let i = rows.length - 1; i >= 1; i--)` scan: the largest row
index `i ≥ 1` whose phone cell matches. -/
def findLastIdx (rows : List (List Cell)) (phone : String) : Option Nat :=
  (List.range rows.length).reverse.find? (fun i =>
    decide (1 ≤ i) && ((rows.get? i).elim false (fun r => rowPhoneIs r phone)))

/-- Write cell `j` of a row, padding with empty cells as the sheet does when
a value lands beyond the current width of the row. -/
def setRowCell (row : List Cell) (j : Nat) (v : Cell) : List Cell :=
  (row ++ List.replicate (j + 1 - row.length) (Cell.str "")).set j v

/-- Write cell `(i, j)` of the sheet. -/
def setSheetCell (rows : List (List Cell)) (i j : Nat) (v : Cell) : List (List Cell) :=
  rows.set i (setRowCell ((rows.get? i).getD []) j v)

/-- Source: `updateOrderStatus(phone, newStatus)`: a failed read (`none`) is caught
and yields `false`; with at most a header row it returns `false`; otherwise
the most recent matching row gets `newStatus` written at
`Pedidos!K${i+1}` — column K, i.e. cell index 10 of that row. -/
def updateOrderStatus (sheet : Option (List (List Cell))) (phone newStatus : String) :
    Bool × Option (List (List Cell)) :=
  match sheet with
  | none => (false, none)
  | some rows =>
    if rows.length ≤ 1 then (false, some rows)
    else
      match findLastIdx rows phone with
      | some i => (true, some (setSheetCell rows i 10 (Cell.str newStatus)))
      | none => (false, some rows)

/-- The `status` field `GET /api/orders` reads back from a row:
`row[9] || "NUEVO"` (column J). -/
def apiOrderStatus (row : List Cell) : String :=
  match row.get? 9 with
  | some (Cell.str s) => jsStrOr s "NUEVO"
  | _ => "NUEVO"

/-- Source: `generateMercadoPagoLink(total, orderId, customerName)` (the
`encodeURIComponent` intermediate of the source is dead code — the returned
link only interpolates the total and the last six characters of the id). -/
def generateMercadoPagoLink (total : Option Int) (orderId : String)
    (_customerName : String) : String :=
  "https://mpago.la/2Qx8y9z?amount=" ++ numToStr total ++ "&concept=Pedido-" ++
    sliceNeg6 orderId

/-- What `processOrder` produces: the returned order id, the mutated
session (`userCarts.set(phone, [])`, `userStates.set(phone,
STATES.MAIN_MENU)`), the sheet after the append, the Twilio/store effects
in order, and the remaining clock. -/
structure ProcResult where
  orderId : String
  session : Session
  sheet : Option (List (List Cell))
  effects : List Effect
  clock : List Nat
deriving DecidableEq, Repr

/-- Source: `processOrder(phone, customerName, cart, deliveryType, address,
paymentMethod)`: total over the cart, `orderId = Date.now().toString()`,
assemble `orderData` (payment status `Confirmado` for cash, `Pendiente`
otherwise), persist via `saveOrder` (which reads `new Date()` — the second
clock entry), clear the cart, reset the state to `MAIN_MENU`, and send the
confirmation message. -/
def processOrder (clock : List Nat) (phone customerName : String)
    (cart : List CartItem) (deliveryType address paymentMethod : String)
    (sess : Session) (sheet : Option (List (List Cell))) : ProcResult :=
  let total := cartTotal cart
  let t1 := tick clock
  let orderId := natToStr t1.1
  let o : OrderData :=
    { customerPhone := phone, customerName := customerName, items := cart,
      total := total, deliveryType := deliveryType, address := address,
      paymentMethod := paymentMethod,
      paymentStatus := if paymentMethod = "efectivo" then "Confirmado" else "Pendiente",
      orderId := orderId }
  let t2 := tick t1.2
  let saved := saveOrder t2.1 sheet o
  { orderId := orderId
    session := { sess with cart := some [], state := some mainMenuSt }
    sheet := saved.1
    effects := [Effect.gwSaveOrder saved.2,
      Effect.send phone
        (OutMsg.orderConfirmation orderId cart total deliveryType address paymentMethod)]
    clock := t2.2 }

/-- The webhook handler `app.post("/webhook", ...)`, as a total function
from (fresh catalog, clock, inbound event, sender state) to (new state,
effects).  The branch structure mirrors the `if`/`else if` chain of the source:
image proof-of-payment first, then the literal commands, then the
state-specific branches, then product selection, then the welcome default. -/
def webhook (menu : List Product) (clock : List Nat) (ev : Event) (st : BotState) :
    BotState × List Effect :=
  let message := jsNormBody ev.Body
  let phone := ev.From
  let customerName := jsGetStrOr ev.ProfileName "Cliente"
  let userState := stateView st.session
  let cart := cartView st.session
  if hasImage ev = true ∧ userState = paymentConfirmationSt then
    let upd := updateOrderStatus st.sheet phone "PAGO_RECIBIDO"
    ({ session := { st.session with state := some mainMenuSt }, sheet := upd.2 },
     [Effect.gwUpdateStatus phone "PAGO_RECIBIDO", Effect.send phone OutMsg.proofReceived])
  else if message = "menu" ∨ message = "menú" then
    ({ st with session := { st.session with state := some browsingSt } },
     [Effect.gwFetchMenu, Effect.send phone (OutMsg.menuAndCart menu cart)])
  else if message = "carrito" then
    (st, [Effect.send phone (OutMsg.cartContents cart)])
  else if message = "limpiar" then
    ({ st with session := { st.session with cart := some [], state := some mainMenuSt } },
     [Effect.send phone OutMsg.cartCleared])
  else if message = "cancelar" then
    if cart = [] then (st, [Effect.send phone OutMsg.nothingToCancel])
    else
      ({ st with session := { st.session with cart := some [], state := some mainMenuSt } },
       [Effect.send phone OutMsg.orderCancelled])
  else if message = "finalizar" then
    if cart = [] then (st, [Effect.send phone OutMsg.emptyCartFinalize])
    else
      ({ st with session := { st.session with state := some deliveryInfoSt } },
       [Effect.send phone (OutMsg.orderSummaryDeliveryChoice cart)])
  else if userState = deliveryInfoSt then
    if message = "1" then
      ({ st with
          session := { st.session with state := some paymentMethodSt, deliv := some "delivery" } },
       [Effect.send phone OutMsg.deliveryAddressPrompt])
    else if message = "2" then
      ({ st with
          session := { st.session with state := some paymentMethodSt, deliv := some "pickup" } },
       [Effect.send phone (OutMsg.paymentPromptPickup cart)])
    else (st, [Effect.send phone OutMsg.invalidDeliveryOption])
  else if userState = paymentMethodSt then
    let deliveryType := jsGetStrOr st.session.deliv "pickup"
    if deliveryType = "delivery" ∧ jsTruthyOpt st.session.addr = false then
      ({ st with session := { st.session with addr := some message } },
       [Effect.send phone (OutMsg.paymentPromptDelivery cart message)])
    else if message = "1" then
      let finalAddress := st.session.addr.getD ""
      let po := processOrder clock phone customerName cart deliveryType finalAddress
        "efectivo" st.session st.sheet
      ({ session := { po.session with deliv := none, addr := none }, sheet := po.sheet },
       po.effects)
    else if message = "2" then
      let finalAddress := st.session.addr.getD ""
      let total := cartTotal cart
      let t1 := tick clock
      let orderId := natToStr t1.1
      let mpLink := generateMercadoPagoLink total orderId customerName
      let po := processOrder t1.2 phone customerName cart deliveryType finalAddress
        "mercadopago" st.session st.sheet
      let sess2 : Session :=
        { po.session with state := some paymentConfirmationSt, deliv := none, addr := none }
      ({ session := sess2, sheet := po.sheet },
       Effect.send phone (OutMsg.mpInstructions cart total mpLink orderId) :: po.effects)
    else (st, [Effect.send phone OutMsg.invalidPaymentOption])
  else if isSelectionMsg message = true then
    let sel := processSelection menu cart (tokenIds message)
    ({ st with
        session := { st.session with cart := some sel.cart, state := some browsingSt } },
     [Effect.gwFetchMenu,
      Effect.send phone (OutMsg.productsAdded sel.added sel.notFound sel.cart)])
  else
    ({ st with session := { st.session with state := some mainMenuSt } },
     [Effect.send phone (OutMsg.welcome customerName)])

/-- Responses of `POST /api/orders/:phone/status`. -/
inductive ApiResp where
  | okSuccess
  | errNotFound
deriving DecidableEq, Repr

/-- The `switch (status)` of the admin endpoint: the six known statuses get
their canned notification text, any other status leaves
`notificationMessage` empty (falsy), so nothing is sent. -/
def statusNotification (status : String) : Option OutMsg :=
  if status = "PREPARANDO" ∨ status = "LISTO" ∨ status = "EN_DELIVERY" ∨
     status = "ENTREGADO" ∨ status = "FINALIZADO" ∨ status = "CANCELADO" then
    some (OutMsg.adminNotification status)
  else none

/-- Source: `POST /api/orders/:phone/status`: delegate to `updateOrderStatus` with
the `whatsapp:`-prefixed phone; on success notify the customer when the
status is a known one and answer `{success: true}`; otherwise answer the
distinct 404 `Order not found` with no notification. -/
def postOrderStatus (sheet : Option (List (List Cell))) (phone status : String) :
    ApiResp × Option (List (List Cell)) × List Effect :=
  let upd := updateOrderStatus sheet ("whatsapp:" ++ phone) status
  if upd.1 = true then
    match statusNotification status with
    | some m => (ApiResp.okSuccess, upd.2, [Effect.send ("whatsapp:" ++ phone) m])
    | none => (ApiResp.okSuccess, upd.2, [])
  else (ApiResp.errNotFound, upd.2, [])

/-! ### Quantity accounting for the product-selection loop -/

/-- Total quantity the cart holds for the product id `s` (the sum over all
lines with that id; with the no-duplicate invariant it is the quantity of the single
line, or 0 when the line is absent). -/
def qtyOf : List CartItem → String → Nat
  | [], _ => 0
  | it :: r, s => (if it.product.id = s then it.quantity else 0) + qtyOf r s

/-- Whether the token value `pid` resolves (via the catalog lookup
`parseInt(item.id) === productId`, first match) to the product with id `s`. -/
def resolvesTo (menu : List Product) (pid : Int) (s : String) : Bool :=
  ((menu.find? (fun p => parseIntM p.id == some pid)).map (fun p => p.id)) == some s

/-- How many of the parsed tokens resolve to the product with id `s`. -/
def countResolvedTo (menu : List Product) (ids : List Int) (s : String) : Nat :=
  (ids.filter (fun pid => resolvesTo menu pid s)).length

/-! ### Concrete data used by the scenario theorems and witnesses -/

/-- A first example catalog product (id "1"). -/
def productEmpanada : Product :=
  { id := "1", name := "Empanada de Carne", description := "Carne cortada a cuchillo",
    price := some 800, category := "Empanadas", available := true }

/-- A second example catalog product (id "2"). -/
def productPizza : Product :=
  { id := "2", name := "Pizza Muzzarella", description := "",
    price := some 5600, category := "Pizzas", available := true }

/-- An example two-product catalog with ids "1" and "2". -/
def menuEx : List Product := [productEmpanada, productPizza]

/-- The header row of the `Pedidos` sheet. -/
def headerEx : List Cell :=
  [Cell.str "Fecha", Cell.str "Telefono", Cell.str "Cliente", Cell.str "Items",
   Cell.str "Total", Cell.str "Entrega", Cell.str "Direccion", Cell.str "Pago",
   Cell.str "EstadoPago", Cell.str "Estado"]

/-! ### Lemmas about the selection loop -/

/-- Source: `incFirst` bumps the total quantity of `t` by one exactly when some
line with id `s` exists and `s = t`. -/
lemma qtyOf_incFirst (s t : String) (cart : List CartItem) :
    qtyOf (incFirst cart s) t =
      qtyOf cart t +
        (if (cart.find? (fun it => it.product.id == s)).isSome ∧ s = t then 1 else 0) := by
  induction cart with
  | nil => simp [incFirst, qtyOf]
  | cons it r ih =>
    by_cases h : it.product.id = s
    · rw [incFirst, if_pos h]
      rw [List.find?_cons_of_pos _ (by simp [h])]
      by_cases hst : s = t
      · have hit : it.product.id = t := by rw [h, hst]
        simp [qtyOf, hit, hst]
        omega
      · have hit : ¬ it.product.id = t := by rw [h]; exact hst
        simp [qtyOf, hit, hst]
    · rw [incFirst, if_neg h]
      rw [List.find?_cons_of_neg _ (by simp [h])]
      simp only [qtyOf]
      rw [ih]
      omega

/-- Appending a fresh quantity-1 line bumps the total quantity of `t` by
one exactly when the id of the new line is `t`. -/
lemma qtyOf_append (t : String) (p : Product) (cart : List CartItem) :
    qtyOf (cart ++ [{ product := p, quantity := 1 }]) t
      = qtyOf cart t + (if p.id = t then 1 else 0) := by
  induction cart with
  | nil => simp [qtyOf]
  | cons it r ih =>
    simp only [List.cons_append, qtyOf, List.append_eq]
    rw [ih]
    omega

/-- Source: `incFirst` changes only a quantity: the sequence of line ids is kept. -/
lemma incFirst_map_id (s : String) (cart : List CartItem) :
    (incFirst cart s).map (fun it => it.product.id)
      = cart.map (fun it => it.product.id) := by
  induction cart with
  | nil => rfl
  | cons it r ih =>
    by_cases h : it.product.id = s
    · simp [incFirst, h]
    · simp [incFirst, h, ih]

/-- One selection step bumps the total quantity of `t` by one exactly when
the token resolves to the product with id `t`. -/
lemma addProduct_qtyOf (menu : List Product) (st : SelState) (pid : Int) (t : String) :
    qtyOf (addProduct menu st pid).cart t
      = qtyOf st.cart t + (if resolvesTo menu pid t = true then 1 else 0) := by
  cases hf : menu.find? (fun p => parseIntM p.id == some pid) with
  | none => simp [addProduct, resolvesTo, hf]
  | some p =>
    cases hc : st.cart.find? (fun it => it.product.id == p.id) with
    | some it0 =>
      simp only [addProduct, resolvesTo, hf, hc]
      rw [qtyOf_incFirst, hc]
      simp [beq_iff_eq]
    | none =>
      simp only [addProduct, resolvesTo, hf, hc]
      rw [qtyOf_append]
      simp [beq_iff_eq]

/-- One selection step preserves the no-duplicate-ids invariant. -/
lemma addProduct_nodup (menu : List Product) (st : SelState) (pid : Int)
    (h : (st.cart.map (fun it => it.product.id)).Nodup) :
    ((addProduct menu st pid).cart.map (fun it => it.product.id)).Nodup := by
  cases hf : menu.find? (fun p => parseIntM p.id == some pid) with
  | none => simpa [addProduct, hf] using h
  | some p =>
    cases hc : st.cart.find? (fun it => it.product.id == p.id) with
    | some it0 =>
      simp only [addProduct, hf, hc]
      rw [incFirst_map_id]
      exact h
    | none =>
      simp only [addProduct, hf, hc, List.map_append]
      have hnot : p.id ∉ st.cart.map (fun it => it.product.id) := by
        intro hmem
        rcases List.mem_map.mp hmem with ⟨it, hit, hid⟩
        have hne := List.find?_eq_none.mp hc it hit
        exact hne (by simp [beq_iff_eq, hid])
      refine List.Nodup.append h (List.nodup_singleton _) ?_
      intro a ha hb
      have : a = p.id := by simpa using hb
      rw [this] at ha
      exact hnot ha

/-- Quantity accounting over the whole selection fold. -/
lemma foldl_addProduct_qtyOf (menu : List Product) (ids : List Int) :
    ∀ (st : SelState) (t : String),
      qtyOf ((ids.foldl (addProduct menu) st).cart) t
        = qtyOf st.cart t + countResolvedTo menu ids t := by
  induction ids with
  | nil => intro st t; simp [countResolvedTo]
  | cons pid rest ih =>
    intro st t
    rw [List.foldl_cons, ih, addProduct_qtyOf]
    have hcount : countResolvedTo menu (pid :: rest) t
        = (if resolvesTo menu pid t = true then 1 else 0) + countResolvedTo menu rest t := by
      by_cases h : resolvesTo menu pid t = true
      · simp [countResolvedTo, List.filter_cons, h]
        omega
      · simp [countResolvedTo, List.filter_cons, h]
    rw [hcount]
    omega

/-- Invariant preservation over the whole selection fold. -/
lemma foldl_addProduct_nodup (menu : List Product) (ids : List Int) :
    ∀ st : SelState, (st.cart.map (fun it => it.product.id)).Nodup →
      (((ids.foldl (addProduct menu) st).cart).map (fun it => it.product.id)).Nodup := by
  induction ids with
  | nil => intro st h; simpa using h
  | cons pid rest ih =>
    intro st h
    rw [List.foldl_cons]
    exact ih _ (addProduct_nodup menu st pid h)

/-- Filtering after mapping is mapping after filtering the composed
predicate (used to read the map-then-filter of `getMenu` as a row filter). -/
lemma filter_comm_map {α β : Type} (f : α → β) (q : β → Bool) (l : List α) :
    (l.map f).filter q = (l.filter (fun a => q (f a))).map f := by
  induction l with
  | nil => rfl
  | cons a l ih =>
    by_cases h : q (f a) = true
    · simp [List.filter_cons, h, ih]
    · simp [List.filter_cons, h, ih]

/-! ### The claims -/

/-- C2: processing a product-selection message (digits, commas and
whitespace only) against a catalog with unique ids bumps, for every
product id `t`, the total cart quantity for `t` by exactly the number of
tokens that resolve to `t` (so each resolved token adds exactly 1, a new
line starting from quantity 0), and the resulting cart never holds two
lines with the same product id when the incoming cart did not. -/
theorem selection_increments_and_nodup (menu : List Product) (cart : List CartItem)
    (msg : String) (hsel : isSelectionMsg msg = true)
    (hmenu : (menu.map (fun p => p.id)).Nodup)
    (hcart : (cart.map (fun it => it.product.id)).Nodup) :
    (∀ t : String,
        qtyOf (processSelection menu cart (tokenIds msg)).cart t
          = qtyOf cart t + countResolvedTo menu (tokenIds msg) t)
    ∧ ((processSelection menu cart (tokenIds msg)).cart.map
        (fun it => it.product.id)).Nodup := by
  constructor
  · intro t
    simpa [processSelection] using
      foldl_addProduct_qtyOf menu (tokenIds msg) ⟨cart, [], []⟩ t
  · simpa [processSelection] using
      foldl_addProduct_nodup menu (tokenIds msg) ⟨cart, [], []⟩ (by simpa using hcart)

/-- Witness for C2: the theorem applied to the catalog `[id "1", id "2"]`,
the empty cart and the message `"1,2,1"`, read off at id "1". -/
theorem selection_increments_and_nodup_w :
    (qtyOf (processSelection menuEx [] (tokenIds "1,2,1")).cart "1"
        = qtyOf [] "1" + countResolvedTo menuEx (tokenIds "1,2,1") "1")
    ∧ ((processSelection menuEx [] (tokenIds "1,2,1")).cart.map
        (fun it => it.product.id)).Nodup := by
  have h := selection_increments_and_nodup menuEx [] "1,2,1"
    (by decide) (by decide) (by decide)
  exact ⟨h.1 "1", h.2⟩

/-- C9: `getMenu` returns exactly the data rows (header dropped) whose
availability cell is the literal `TRUE`, parsed in source order, and
returns `[]` when the read throws, when the response has no values, or
when there are no rows at all. -/
theorem getMenu_available_filter :
    getMenu (Except.error ()) = []
    ∧ getMenu (Except.ok none) = []
    ∧ getMenu (Except.ok (some [])) = []
    ∧ ∀ rows : List (List String),
        getMenu (Except.ok (some rows))
          = (rows.tail.filter (fun r => r.getD 5 "" == "TRUE")).map rowToProduct := by
  refine ⟨rfl, rfl, rfl, ?_⟩
  intro rows
  cases rows with
  | nil => rfl
  | cons hd tl =>
    show ((tl.map rowToProduct).filter (fun p => p.available)) = _
    rw [filter_comm_map]
    rfl

/-- Witness for C9: the row equation read off at a concrete sheet holding
a header, one available row, one unavailable row and one short row. -/
theorem getMenu_available_filter_w :
    getMenu (Except.ok (some [["id", "nombre", "desc", "precio", "cat", "disp"],
        ["1", "Empanada", "", "800", "Emp", "TRUE"],
        ["2", "Pizza", "", "5600", "Pi", "FALSE"],
        ["3"]]))
      = ([["1", "Empanada", "", "800", "Emp", "TRUE"],
          ["2", "Pizza", "", "5600", "Pi", "FALSE"],
          ["3"]].filter (fun r => r.getD 5 "" == "TRUE")).map rowToProduct := by
  exact getMenu_available_filter.2.2.2
    [["id", "nombre", "desc", "precio", "cat", "disp"],
     ["1", "Empanada", "", "800", "Emp", "TRUE"],
     ["2", "Pizza", "", "5600", "Pi", "FALSE"],
     ["3"]]

/-- The inbound event of the C3 scenario: the message `"1,2,1"`. -/
def evSel : Event :=
  { Body := some "1,2,1", From := "whatsapp:+5491155550000", ProfileName := some "Ana",
    MediaUrl0 := none, MediaContentType0 := none }

/-- The sender state in the C3 scenario: browsing, empty cart. -/
def stSel : BotState :=
  { session := { state := some browsingSt, cart := some [], deliv := none, addr := none },
    sheet := none }

/-- C3: on `"1,2,1"` against the catalog `[id "1", id "2"]` with an empty
cart, the cart ends as exactly [id "1" qty 2, id "2" qty 1]; the
added-products list of the reply carries the name of product 1 twice (once per resolved
token) while the rendered cart of the same reply shows one consolidated
line for id "1" with quantity 2. -/
theorem selection_scenario_121 :
    (webhook menuEx [] evSel stSel).1.session.cart
        = some [{ product := productEmpanada, quantity := 2 },
                { product := productPizza, quantity := 1 }]
    ∧ (webhook menuEx [] evSel stSel).2
        = [Effect.gwFetchMenu,
           Effect.send "whatsapp:+5491155550000"
             (OutMsg.productsAdded
               ["Empanada de Carne", "Pizza Muzzarella", "Empanada de Carne"] []
               [{ product := productEmpanada, quantity := 2 },
                { product := productPizza, quantity := 1 }])]
    ∧ (["Empanada de Carne", "Pizza Muzzarella", "Empanada de Carne"].count
        "Empanada de Carne") = 2
    ∧ cartDisplayLines
        [{ product := productEmpanada, quantity := 2 },
         { product := productPizza, quantity := 1 }]
        = [("Empanada de Carne", 2), ("Pizza Muzzarella", 1)] := by
  refine ⟨?_, ?_, ?_, ?_⟩ <;> decide

/-- C10: an event whose `Body` is absent or empty normalizes to the empty
string, so no string operation can throw; and in `MAIN_MENU` or
`BROWSING_PRODUCTS` such an event — image attachment or not — falls
through every branch to the welcome default: the greeting (with the
display name of the sender) is the only effect, the state is set to
`MAIN_MENU`, and the cart and sheet are untouched. -/
theorem empty_body_welcome (menu : List Product) (clock : List Nat) (ev : Event)
    (st : BotState)
    (hbody : ev.Body = none ∨ ev.Body = some "")
    (hst : stateView st.session = mainMenuSt ∨ stateView st.session = browsingSt) :
    jsNormBody ev.Body = ""
    ∧ (webhook menu clock ev st).1.session.cart = st.session.cart
    ∧ (webhook menu clock ev st).1.session.state = some mainMenuSt
    ∧ (webhook menu clock ev st).1.sheet = st.sheet
    ∧ (webhook menu clock ev st).2
        = [Effect.send ev.From (OutMsg.welcome (jsGetStrOr ev.ProfileName "Cliente"))] := by
  have hm : jsNormBody ev.Body = "" := by
    rcases hbody with h | h <;> rw [h] <;> rfl
  have hpc : ¬ (hasImage ev = true ∧ stateView st.session = "payment_confirmation") := by
    rintro ⟨-, h2⟩
    rcases hst with h | h <;> rw [h] at h2 <;> revert h2 <;> decide
  have hdi : ¬ stateView st.session = "delivery_info" := by
    rcases hst with h | h <;> rw [h] <;> decide
  have hpm : ¬ stateView st.session = "payment_method" := by
    rcases hst with h | h <;> rw [h] <;> decide
  have hns : isSelectionMsg "" = false := by decide
  refine ⟨hm, ?_⟩
  simp [webhook, hm, hpc, hdi, hpm, hns, mainMenuSt, browsingSt, deliveryInfoSt, paymentMethodSt, paymentConfirmationSt]

/-- C5 (amended): in `PAYMENT_CONFIRMATION`, any event carrying an image
attachment runs `updateOrderStatus(phone, "PAGO_RECIBIDO")` against the
order sheet (which writes the marker into column K of the most recent
matching row — not into the payment-status field), sends the confirmation
text, and moves the state to `MAIN_MENU` with the cart untouched. -/
theorem image_proof_behavior (menu : List Product) (clock : List Nat) (ev : Event)
    (st : BotState)
    (himg : hasImage ev = true)
    (hst : stateView st.session = paymentConfirmationSt) :
    (webhook menu clock ev st).1.session.state = some mainMenuSt
    ∧ (webhook menu clock ev st).1.session.cart = st.session.cart
    ∧ (webhook menu clock ev st).1.sheet
        = (updateOrderStatus st.sheet ev.From "PAGO_RECIBIDO").2
    ∧ (webhook menu clock ev st).2
        = [Effect.gwUpdateStatus ev.From "PAGO_RECIBIDO",
           Effect.send ev.From OutMsg.proofReceived] := by
  simp [webhook, himg, hst, mainMenuSt, browsingSt, deliveryInfoSt, paymentMethodSt, paymentConfirmationSt]

/-- C6 (amended): in `PAYMENT_METHOD` with pending delivery and no
(truthy) address stored, any event whose normalized body is not one of the
global commands has that normalized — lowercased and trimmed, not raw —
body stored as the pending address; the state entry, cart and sheet are
untouched, the payment-method prompt is the only effect, and in particular
no order is persisted.  The body is scoped to the Basic Latin and Latin-1
blocks, on which the embedded normalization (`jsCharToLower` plus the
exact ECMAScript whitespace set of `isWsChar`) coincides character for
character with `toLowerCase().trim()`. -/
theorem address_collection_step (menu : List Product) (clock : List Nat) (ev : Event)
    (st : BotState)
    (hst : stateView st.session = paymentMethodSt)
    (hdt : jsGetStrOr st.session.deliv "pickup" = "delivery")
    (ha : jsTruthyOpt st.session.addr = false)
    (hcmd : jsNormBody ev.Body ∉
      (["menu", "menú", "carrito", "limpiar", "cancelar", "finalizar"] : List String))
    (hlat : ∀ c ∈ (ev.Body.getD "").toList, c.toNat < 0x100) :
    (webhook menu clock ev st).1.session.addr = some (jsNormBody ev.Body)
    ∧ (webhook menu clock ev st).1.session.state = st.session.state
    ∧ (webhook menu clock ev st).1.session.cart = st.session.cart
    ∧ (webhook menu clock ev st).1.sheet = st.sheet
    ∧ (webhook menu clock ev st).2
        = [Effect.send ev.From
            (OutMsg.paymentPromptDelivery (cartView st.session) (jsNormBody ev.Body))] := by
  simp only [List.mem_cons, List.mem_singleton, not_or] at hcmd
  obtain ⟨h1, h2, h3, h4, h5, h6, -⟩ := hcmd
  have hpc : ¬ (hasImage ev = true ∧ stateView st.session = paymentConfirmationSt) := by
    rintro ⟨-, hx⟩
    rw [hst] at hx
    revert hx
    decide
  have hdi : ¬ stateView st.session = deliveryInfoSt := by
    rw [hst]; decide
  simp [webhook, hpc, hdi, hst, hdt, ha, h1, h2, h3, h4, h5, h6, mainMenuSt, browsingSt, deliveryInfoSt, paymentMethodSt, paymentConfirmationSt]

/-- C8 (amended): when the `finalizar` command arrives with an empty cart
— and the event is not an image arriving in `PAYMENT_CONFIRMATION`, whose
proof-of-payment branch preempts command handling — the whole state is
left exactly as it was (no transition to `DELIVERY_INFO`) and the
empty-cart reply is the only effect: in particular no Order Gateway call
appears among the effects. -/
theorem finalizar_empty_cart_frame (menu : List Product) (clock : List Nat) (ev : Event)
    (st : BotState)
    (hmsg : jsNormBody ev.Body = "finalizar")
    (hcart : cartView st.session = [])
    (hni : ¬ (hasImage ev = true ∧ stateView st.session = paymentConfirmationSt)) :
    (webhook menu clock ev st).1 = st
    ∧ (webhook menu clock ev st).2 = [Effect.send ev.From OutMsg.emptyCartFinalize] := by
  have hni2 : ¬ (hasImage ev = true ∧ stateView st.session = "payment_confirmation") := by
    simpa [paymentConfirmationSt] using hni
  simp [webhook, hmsg, hcart, hni2, mainMenuSt, browsingSt, deliveryInfoSt, paymentMethodSt, paymentConfirmationSt]

/-- C1 (amended): any finalization out of `PAYMENT_METHOD` (address known
or pickup, input `1` = cash or `2` = MercadoPago) empties the cart of the
session and clears the pending fields; the state ends at `MAIN_MENU` for cash
but at `PAYMENT_CONFIRMATION` for MercadoPago, where the handler overrides
the reset made by `processOrder` right after it returns. -/
theorem order_finalization_state (menu : List Product) (clock : List Nat) (ev : Event)
    (st : BotState)
    (hst : stateView st.session = paymentMethodSt)
    (haddr : jsGetStrOr st.session.deliv "pickup" = "delivery" →
      jsTruthyOpt st.session.addr = true)
    (hmsg : jsNormBody ev.Body = "1" ∨ jsNormBody ev.Body = "2") :
    (webhook menu clock ev st).1.session.cart = some []
    ∧ (webhook menu clock ev st).1.session.deliv = none
    ∧ (webhook menu clock ev st).1.session.addr = none
    ∧ (jsNormBody ev.Body = "1" →
        (webhook menu clock ev st).1.session.state = some mainMenuSt)
    ∧ (jsNormBody ev.Body = "2" →
        (webhook menu clock ev st).1.session.state = some paymentConfirmationSt) := by
  have hpc : ¬ (hasImage ev = true ∧ stateView st.session = paymentConfirmationSt) := by
    rintro ⟨-, hx⟩
    rw [hst] at hx
    revert hx
    decide
  have hdi : ¬ stateView st.session = deliveryInfoSt := by
    rw [hst]; decide
  have hng : ¬ (jsGetStrOr st.session.deliv "pickup" = "delivery" ∧
      jsTruthyOpt st.session.addr = false) := by
    rintro ⟨h1, h2⟩
    rw [haddr h1] at h2
    exact absurd h2 (by decide)
  rcases hmsg with hm | hm <;>
    simp [webhook, hpc, hdi, hng, hst, hm, processOrder, mainMenuSt, browsingSt, deliveryInfoSt, paymentMethodSt, paymentConfirmationSt]

/-- C4 (amended): `processOrder` returns the order id it assigns from its
own `Date.now()` reading (the persisted row itself carries no id column),
and the MercadoPago branch sends payment instructions whose link and
concept embed a *different* id, generated in the webhook from an earlier
`Date.now()` reading before `processOrder` runs; the ids agree only when
the two clock readings agree. -/
theorem mp_order_ids (menu : List Product) (t1 t2 t3 : Nat) (rest : List Nat)
    (ev : Event) (st : BotState)
    (hst : stateView st.session = paymentMethodSt)
    (haddr : jsGetStrOr st.session.deliv "pickup" = "delivery" →
      jsTruthyOpt st.session.addr = true)
    (hmsg : jsNormBody ev.Body = "2") :
    (processOrder (t2 :: t3 :: rest) ev.From (jsGetStrOr ev.ProfileName "Cliente")
        (cartView st.session) (jsGetStrOr st.session.deliv "pickup")
        (st.session.addr.getD "") "mercadopago" st.session st.sheet).orderId
      = natToStr t2
    ∧ (webhook menu (t1 :: t2 :: t3 :: rest) ev st).2
      = Effect.send ev.From
          (OutMsg.mpInstructions (cartView st.session) (cartTotal (cartView st.session))
            (generateMercadoPagoLink (cartTotal (cartView st.session)) (natToStr t1)
              (jsGetStrOr ev.ProfileName "Cliente"))
            (natToStr t1))
        :: (processOrder (t2 :: t3 :: rest) ev.From (jsGetStrOr ev.ProfileName "Cliente")
            (cartView st.session) (jsGetStrOr st.session.deliv "pickup")
            (st.session.addr.getD "") "mercadopago" st.session st.sheet).effects := by
  have hpc : ¬ (hasImage ev = true ∧ stateView st.session = paymentConfirmationSt) := by
    rintro ⟨-, hx⟩
    rw [hst] at hx
    revert hx
    decide
  have hdi : ¬ stateView st.session = deliveryInfoSt := by
    rw [hst]; decide
  have hng : ¬ (jsGetStrOr st.session.deliv "pickup" = "delivery" ∧
      jsTruthyOpt st.session.addr = false) := by
    rintro ⟨h1, h2⟩
    rw [haddr h1] at h2
    exact absurd h2 (by decide)
  constructor
  · simp [processOrder, tick]
  · simp [webhook, hpc, hdi, hng, hst, hmsg, tick, mainMenuSt, browsingSt, deliveryInfoSt, paymentMethodSt, paymentConfirmationSt]

/-! ### Concrete counterexample inputs -/

/-- Message `2` (MercadoPago) in `PAYMENT_METHOD`, address on file. -/
def evC1 : Event :=
  { Body := some "2", From := "whatsapp:+5491155554444", ProfileName := some "Leo",
    MediaUrl0 := none, MediaContentType0 := none }

/-- A delivery session about to finalize with MercadoPago. -/
def stC1 : BotState :=
  { session := { state := some paymentMethodSt,
                 cart := some [{ product := productPizza, quantity := 1 }],
                 deliv := some "delivery", addr := some "av. siempre viva 742" },
    sheet := none }

/-- C1 counterexample: an online-payment finalization (input `2` in
`PAYMENT_METHOD`) ends with an emptied cart but with the session state at
`PAYMENT_CONFIRMATION`, which is not the initial state `MAIN_MENU` — the
claim sentence "state is the initial state regardless of payment method" fails. -/
theorem order_finalization_mp_state_cex :
    (webhook menuEx [10, 20, 30] evC1 stC1).1.session.cart = some []
    ∧ (webhook menuEx [10, 20, 30] evC1 stC1).1.session.state
        = some paymentConfirmationSt
    ∧ paymentConfirmationSt ≠ mainMenuSt := by
  refine ⟨?_, ?_, ?_⟩ <;> decide

/-- Message `2` (MercadoPago) in `PAYMENT_METHOD`, pickup. -/
def evMp : Event :=
  { Body := some "2", From := "whatsapp:+5491155552222", ProfileName := some "Luis",
    MediaUrl0 := none, MediaContentType0 := none }

/-- A pickup session about to finalize with MercadoPago, sheet with only a
header. -/
def stMp : BotState :=
  { session := { state := some paymentMethodSt,
                 cart := some [{ product := productEmpanada, quantity := 2 }],
                 deliv := some "pickup", addr := none },
    sheet := some [headerEx] }

/-- Message `1` (cash) in `PAYMENT_METHOD`, pickup — the witness event. -/
def evMpW : Event :=
  { Body := some "1", From := "whatsapp:+5491155556666", ProfileName := some "Nico",
    MediaUrl0 := none, MediaContentType0 := none }

/-- A pickup session about to finalize with cash — the witness state. -/
def stMpW : BotState :=
  { session := { state := some paymentMethodSt,
                 cart := some [{ product := productEmpanada, quantity := 1 }],
                 deliv := some "pickup", addr := none },
    sheet := none }

/-- Witness for the amended C1 theorem at a concrete pickup/cash session. -/
theorem order_finalization_state_w :
    (webhook [] [7, 8] evMpW stMpW).1.session.cart = some []
    ∧ (webhook [] [7, 8] evMpW stMpW).1.session.deliv = none
    ∧ (webhook [] [7, 8] evMpW stMpW).1.session.addr = none
    ∧ (jsNormBody evMpW.Body = "1" →
        (webhook [] [7, 8] evMpW stMpW).1.session.state = some mainMenuSt)
    ∧ (jsNormBody evMpW.Body = "2" →
        (webhook [] [7, 8] evMpW stMpW).1.session.state = some paymentConfirmationSt) := by
  exact order_finalization_state [] [7, 8] evMpW stMpW (by decide)
    (fun h => absurd h (by decide)) (Or.inl (by decide))

/-- C4 counterexample: with clock readings 1111 (webhook) then 2222
(`processOrder`) then 3333 (`saveOrder`), the payment link and payment
instructions sent to the user embed order id `1111`, while the
finalization persisted by `processOrder` carries and confirms order id
`2222` — the two ids differ, refuting "the id embedded in the payment link
equals the id of the order persisted for that finalization". -/
theorem mp_link_id_mismatch_cex :
    (webhook menuEx [1111, 2222, 3333] evMp stMp).2
      = [Effect.send "whatsapp:+5491155552222"
          (OutMsg.mpInstructions [{ product := productEmpanada, quantity := 2 }]
            (some 1600) "https://mpago.la/2Qx8y9z?amount=1600&concept=Pedido-1111" "1111"),
         Effect.gwSaveOrder
          [Cell.isoTime 3333, Cell.str "whatsapp:+5491155552222", Cell.str "Luis",
           Cell.itemsJson [{ product := productEmpanada, quantity := 2 }],
           Cell.num (some 1600), Cell.str "pickup", Cell.str "",
           Cell.str "mercadopago", Cell.str "Pendiente", Cell.str "NUEVO"],
         Effect.send "whatsapp:+5491155552222"
          (OutMsg.orderConfirmation "2222" [{ product := productEmpanada, quantity := 2 }]
            (some 1600) "pickup" "" "mercadopago")]
    ∧ ("1111" : String) ≠ "2222" := by
  refine ⟨?_, ?_⟩ <;> decide

/-- Witness for the amended C4 theorem at the concrete MercadoPago session. -/
theorem mp_order_ids_w :
    (processOrder [2222, 3333] evMp.From (jsGetStrOr evMp.ProfileName "Cliente")
        (cartView stMp.session) (jsGetStrOr stMp.session.deliv "pickup")
        (stMp.session.addr.getD "") "mercadopago" stMp.session stMp.sheet).orderId
      = natToStr 2222
    ∧ (webhook menuEx [1111, 2222, 3333] evMp stMp).2
      = Effect.send evMp.From
          (OutMsg.mpInstructions (cartView stMp.session) (cartTotal (cartView stMp.session))
            (generateMercadoPagoLink (cartTotal (cartView stMp.session)) (natToStr 1111)
              (jsGetStrOr evMp.ProfileName "Cliente"))
            (natToStr 1111))
        :: (processOrder [2222, 3333] evMp.From (jsGetStrOr evMp.ProfileName "Cliente")
            (cartView stMp.session) (jsGetStrOr stMp.session.deliv "pickup")
            (stMp.session.addr.getD "") "mercadopago" stMp.session stMp.sheet).effects := by
  exact mp_order_ids menuEx 1111 2222 3333 [] evMp stMp (by decide)
    (fun h => absurd h (by decide)) (by decide)

/-- The most recent order row of the C5 scenario: payment status cell
(index 8) `Pendiente`, lifecycle status cell (index 9) `NUEVO`. -/
def rowPaid : List Cell :=
  [Cell.isoTime 1700000, Cell.str "whatsapp:+5491155553333", Cell.str "Mia",
   Cell.itemsJson [{ product := productEmpanada, quantity := 1 }], Cell.num (some 800),
   Cell.str "pickup", Cell.str "", Cell.str "mercadopago", Cell.str "Pendiente",
   Cell.str "NUEVO"]

/-- An inbound event carrying an image attachment (proof of payment). -/
def evImg : Event :=
  { Body := none, From := "whatsapp:+5491155553333", ProfileName := some "Mia",
    MediaUrl0 := some "https://api.twilio.com/media/proof1.jpg",
    MediaContentType0 := some "image/jpeg" }

/-- The session awaiting the proof of payment. -/
def stImg : BotState :=
  { session := { state := some paymentConfirmationSt, cart := some [], deliv := none,
                 addr := none },
    sheet := some [headerEx, rowPaid] }

/-- C5 counterexample: after the image event in `PAYMENT_CONFIRMATION` the
payment-status field of the persisted order (cell index 8) still reads
`Pendiente` — unchanged, not a "received" marker; the `PAGO_RECIBIDO`
marker lands in the appended column-K cell (index 10) instead. -/
theorem image_proof_cex :
    (webhook menuEx [] evImg stImg).1.sheet
      = some [headerEx, rowPaid ++ [Cell.str "PAGO_RECIBIDO"]]
    ∧ (rowPaid ++ [Cell.str "PAGO_RECIBIDO"]).get? 8 = some (Cell.str "Pendiente")
    ∧ (rowPaid ++ [Cell.str "PAGO_RECIBIDO"]).get? 8 = rowPaid.get? 8
    ∧ (rowPaid ++ [Cell.str "PAGO_RECIBIDO"]).get? 10 = some (Cell.str "PAGO_RECIBIDO")
    ∧ ("Pendiente" : String) ≠ "PAGO_RECIBIDO" := by
  refine ⟨?_, ?_, ?_, ?_, ?_⟩ <;> decide

/-- Witness for the amended C5 theorem at the concrete image event. -/
theorem image_proof_behavior_w :
    (webhook menuEx [] evImg stImg).1.session.state = some mainMenuSt
    ∧ (webhook menuEx [] evImg stImg).1.session.cart = stImg.session.cart
    ∧ (webhook menuEx [] evImg stImg).1.sheet
        = (updateOrderStatus stImg.sheet evImg.From "PAGO_RECIBIDO").2
    ∧ (webhook menuEx [] evImg stImg).2
        = [Effect.gwUpdateStatus evImg.From "PAGO_RECIBIDO",
           Effect.send evImg.From OutMsg.proofReceived] := by
  exact image_proof_behavior menuEx [] evImg stImg (by decide) (by decide)

/-- The C6 address message, with uppercase letters. -/
def evAddr : Event :=
  { Body := some "Av. Corrientes 1234", From := "whatsapp:+5491155555555",
    ProfileName := some "Caro", MediaUrl0 := none, MediaContentType0 := none }

/-- Source: `PAYMENT_METHOD`, delivery pending, no address recorded yet. -/
def stAddr : BotState :=
  { session := { state := some paymentMethodSt,
                 cart := some [{ product := productEmpanada, quantity := 1 }],
                 deliv := some "delivery", addr := none },
    sheet := none }

/-- C6 counterexample: the address stored for `"Av. Corrientes 1234"` is
the lowercased-and-trimmed `"av. corrientes 1234"`, not the raw message
text — refuting "stored exactly as the raw message text was received". -/
theorem address_lowercased_cex :
    (webhook menuEx [] evAddr stAddr).1.session.addr = some "av. corrientes 1234"
    ∧ some ("av. corrientes 1234" : String) ≠ some ("Av. Corrientes 1234" : String) := by
  refine ⟨?_, ?_⟩ <;> decide

/-- Witness for the amended C6 theorem at the concrete address event. -/
theorem address_collection_step_w :
    (webhook menuEx [] evAddr stAddr).1.session.addr = some (jsNormBody evAddr.Body)
    ∧ (webhook menuEx [] evAddr stAddr).1.session.state = stAddr.session.state
    ∧ (webhook menuEx [] evAddr stAddr).1.session.cart = stAddr.session.cart
    ∧ (webhook menuEx [] evAddr stAddr).1.sheet = stAddr.sheet
    ∧ (webhook menuEx [] evAddr stAddr).2
        = [Effect.send evAddr.From
            (OutMsg.paymentPromptDelivery (cartView stAddr.session)
              (jsNormBody evAddr.Body))] := by
  exact address_collection_step menuEx [] evAddr stAddr (by decide) (by decide)
    (by decide) (by decide) (by decide)

/-- The most recent order row of the C8 scenario. -/
def rowFin : List Cell :=
  [Cell.isoTime 1700500, Cell.str "whatsapp:+5491155551111", Cell.str "Pat",
   Cell.itemsJson [{ product := productPizza, quantity := 1 }], Cell.num (some 5600),
   Cell.str "delivery", Cell.str "callao 10", Cell.str "mercadopago",
   Cell.str "Pendiente", Cell.str "NUEVO"]

/-- Source: `finalizar` sent as the caption of an image attachment. -/
def evFin : Event :=
  { Body := some "finalizar", From := "whatsapp:+5491155551111", ProfileName := some "Pat",
    MediaUrl0 := some "https://api.twilio.com/media/proof2.jpg",
    MediaContentType0 := some "image/jpeg" }

/-- Empty-cart session in `PAYMENT_CONFIRMATION` (as after an online
finalization). -/
def stFin : BotState :=
  { session := { state := some paymentConfirmationSt, cart := some [], deliv := none,
                 addr := none },
    sheet := some [headerEx, rowFin] }

/-- C8 counterexample: an event whose message is `finalizar` with an empty
cart, arriving with an image while in `PAYMENT_CONFIRMATION`: the
proof-of-payment branch preempts the command, the Order Gateway *is*
called (`updateOrderStatus`) and the state *does* change (to `MAIN_MENU`)
— refuting the unconditional claim. -/
theorem finalizar_image_preempt_cex :
    jsNormBody evFin.Body = "finalizar"
    ∧ cartView stFin.session = []
    ∧ (webhook menuEx [] evFin stFin).2
        = [Effect.gwUpdateStatus "whatsapp:+5491155551111" "PAGO_RECIBIDO",
           Effect.send "whatsapp:+5491155551111" OutMsg.proofReceived]
    ∧ (webhook menuEx [] evFin stFin).1.session.state = some mainMenuSt
    ∧ some mainMenuSt ≠ stFin.session.state := by
  refine ⟨?_, ?_, ?_, ?_, ?_⟩ <;> decide

/-- Source: `finalizar` with no attachment — the witness event. -/
def evFinW : Event :=
  { Body := some "Finalizar", From := "whatsapp:+5491155557777", ProfileName := some "Rama",
    MediaUrl0 := none, MediaContentType0 := none }

/-- A browsing session with an empty cart — the witness state. -/
def stFinW : BotState :=
  { session := { state := some browsingSt, cart := some [], deliv := none, addr := none },
    sheet := some [headerEx] }

/-- Witness for the amended C8 theorem: `finalizar` with an empty cart and
no image leaves everything unchanged but the reply. -/
theorem finalizar_empty_cart_frame_w :
    (webhook menuEx [] evFinW stFinW).1 = stFinW
    ∧ (webhook menuEx [] evFinW stFinW).2
        = [Effect.send evFinW.From OutMsg.emptyCartFinalize] := by
  exact finalizar_empty_cart_frame menuEx [] evFinW stFinW (by decide) (by decide)
    (by decide)

/-- The persisted order row of the C7 failing input. -/
def rowJuan : List Cell :=
  [Cell.isoTime 1690000, Cell.str "whatsapp:+5491111111111", Cell.str "Juan",
   Cell.itemsJson [{ product := productEmpanada, quantity := 2 }], Cell.num (some 1600),
   Cell.str "pickup", Cell.str "", Cell.str "Efectivo", Cell.str "Confirmado",
   Cell.str "NUEVO"]

/-- C7: at the failing input — a sheet with the header and one matching
order row — `updateOrderStatus` scans back-to-front, matches the row and
returns `true`, but writes `LISTO` into column K (cell index 10), a cell
`saveOrder` never populates; the status field of the row, cell index 9 (column
J), which `GET /api/orders` reads back, still holds `NUEVO`, so the status
is *not* overwritten in place.  The no-match half of the claim does hold:
on a header-only sheet the admin endpoint answers the distinct not-found
error and sends nothing. -/
theorem updateOrderStatus_writes_column_k :
    updateOrderStatus (some [headerEx, rowJuan]) "whatsapp:+5491111111111" "LISTO"
      = (true, some [headerEx, rowJuan ++ [Cell.str "LISTO"]])
    ∧ (rowJuan ++ [Cell.str "LISTO"]).get? 9 = some (Cell.str "NUEVO")
    ∧ apiOrderStatus (rowJuan ++ [Cell.str "LISTO"]) = "NUEVO"
    ∧ (rowJuan ++ [Cell.str "LISTO"]).get? 10 = some (Cell.str "LISTO")
    ∧ postOrderStatus (some [headerEx]) "5491111111111" "LISTO"
        = (ApiResp.errNotFound, some [headerEx], []) := by
  refine ⟨?_, ?_, ?_, ?_, ?_⟩ <;> decide

/-- An event with an absent `Body` but an image attachment. -/
def evEmpty : Event :=
  { Body := none, From := "whatsapp:+5491155558888", ProfileName := none,
    MediaUrl0 := some "https://api.twilio.com/media/pic.jpg",
    MediaContentType0 := some "image/jpeg" }

/-- A fresh `MAIN_MENU` session with a non-empty cart (left untouched). -/
def stEmpty : BotState :=
  { session := { state := none, cart := some [{ product := productPizza, quantity := 3 }],
                 deliv := none, addr := none },
    sheet := some [headerEx] }

/-- Witness for C10 at a concrete empty-body event in `MAIN_MENU`. -/
theorem empty_body_welcome_w :
    jsNormBody evEmpty.Body = ""
    ∧ (webhook menuEx [] evEmpty stEmpty).1.session.cart = stEmpty.session.cart
    ∧ (webhook menuEx [] evEmpty stEmpty).1.session.state = some mainMenuSt
    ∧ (webhook menuEx [] evEmpty stEmpty).1.sheet = stEmpty.sheet
    ∧ (webhook menuEx [] evEmpty stEmpty).2
        = [Effect.send evEmpty.From
            (OutMsg.welcome (jsGetStrOr evEmpty.ProfileName "Cliente"))] := by
  exact empty_body_welcome menuEx [] evEmpty stEmpty (Or.inl (by decide))
    (Or.inl (by decide))

end WhatsBot
